import Mathlib

/-!
Verification of the Meshcore-Observer capture-to-delivery pipeline.

The definitions below are a shallow embedding of the two firmware source
files `src/main.cpp` (the serial RF sniffer) and `src/observer_main.cpp`
(the MQTT observer).  Machine integers are modelled as `Int`/`Nat` with an
explicit `% 2 ^ 64` where 64-bit overflow matters; the SPIFFS spool file is
modelled as `Option (List String)` (`none` = the file does not exist, each
list element is one stored record line); the PubSubClient MQTT session is
modelled as an abstract state machine `MqttClient`.
-/

namespace MeshcoreObserver

/-! ### Frame capture arithmetic

From `src/main.cpp` lines 97-105 and `src/observer_main.cpp` lines 449-453:
`uint8_t buf[255]; int len = reportedLen; if (len <= 0) len = sizeof(buf);
if (len > (int)sizeof(buf)) len = sizeof(buf);`
-/

/-- Capacity of the receive buffer, `sizeof(buf)` for `uint8_t buf[255]`. -/
def bufSize : Int := 255

/-- The used read length computed by `loop` from the radio-reported packet
length (which may be zero or negative under timing edge cases). -/
def usedLen (reportedLen : Int) : Int :=
  let len := reportedLen
  let len1 := if len ≤ 0 then bufSize else len
  if len1 > bufSize then bufSize else len1

/-- The frame-type field: `int ptype = (len > 0) ? buf[0] : -1;`
(`src/main.cpp` line 115, `src/observer_main.cpp` line 458).  `buf0` is the
first byte of the read buffer. -/
def ptypeOf (len : Int) (buf0 : Int) : Int :=
  if len > 0 then buf0 else -1

/-! ### Fingerprint

From `src/main.cpp` lines 39-46 and 117-119: FNV-1a over the first
`min(len, 20)` payload bytes, on `uint64_t` arithmetic. -/

/-- One FNV-1a step: xor in the byte, multiply by the FNV prime, on 64-bit
wrap-around arithmetic. -/
def fnv1a64Step (h : Nat) (b : Nat) : Nat :=
  ((h ^^^ b) * 0x100000001b3) % 2 ^ 64

/-- Definition of `fnv1a64(data, len)` from `src/main.cpp`: fold the FNV-1a step over the
byte list, starting from the 64-bit FNV offset basis. -/
def fnv1a64 (data : List Nat) : Nat :=
  data.foldl fnv1a64Step 0xcbf29ce484222325

/-- The fingerprint computed in `loop`:
`int fpLen = min(len, 20); uint64_t fp = fnv1a64(buf, fpLen);` — the digest
of the first `min(len, 20)` bytes of the read buffer. -/
def fingerprintOfFrame (buf : List Nat) (len : Nat) : Nat :=
  fnv1a64 (buf.take (min len 20))

/-! ### Spool

From `src/observer_main.cpp` lines 80-83 and 243-276.  The SPIFFS file at
`SPOOL_PATH` is modelled as `Option (List String)`: `none` means the file
does not exist, `some lines` holds one element per record line appended with
`f.println` (which writes the record followed by the two delimiter bytes
`"\r\n"`).  `storageOk` models whether `SPIFFS.begin` and `SPIFFS.open`
succeed; the C++ early-returns `false` when either fails. -/

/-- Constant `MAX_SPOOL_BYTES = 256 * 1024` from `src/observer_main.cpp` line 83. -/
def MAX_SPOOL_BYTES : Nat := 256 * 1024

/-- On-file byte count of one record line: the record plus the two
delimiter bytes written by `File.println`. -/
def lineBytes (s : String) : Nat := s.length + 2

/-- Total size of the spool file, what `stat.size()` returns. -/
def spoolSize (lines : List String) : Nat := (lines.map lineBytes).sum

/-- Definition of `spoolAppend` from `src/observer_main.cpp` lines 243-257: open for
append (creating the file if absent), write the line, then stat the file;
if the resulting size exceeds `MAX_SPOOL_BYTES`, remove the whole file.
Returns the new spool state together with the C++ return value, which is
`false` only when storage could not be opened and `true` otherwise. -/
def spoolAppend (storageOk : Bool) (spool : Option (List String))
    (line : String) : Option (List String) × Bool :=
  if !storageOk then (spool, false)
  else
    let written := spool.getD [] ++ [line]
    if spoolSize written > MAX_SPOOL_BYTES then (none, true)
    else (some written, true)

/-- Abstract model of the PubSubClient MQTT session used by
`src/observer_main.cpp`: a state type `σ` with the operations the observer
calls.  `publish` returns the new session state and the boolean result of
`mqttClient.publish`; `connect` models `mqttClient.connect`; `clientLoop`
models `mqttClient.loop()` keepalive processing. -/
structure MqttClient (σ : Type) where
  connected : σ → Bool
  connect : σ → σ
  publish : σ → String → σ × Bool
  clientLoop : σ → σ

/-- Remove leading and trailing whitespace characters from a character
list. -/
def trimChars (l : List Char) : List Char :=
  (((l.dropWhile Char.isWhitespace).reverse).dropWhile Char.isWhitespace).reverse

/-- The Arduino `String::trim()` applied to a spool line by `spoolFlush`
(`src/observer_main.cpp` line 266): strips surrounding whitespace, in
particular the `"\r"` left over from the `"\r\n"` line delimiter. -/
def trimLine (s : String) : String := String.mk (trimChars s.data)

/-- The read-and-publish loop of `spoolFlush` (`src/observer_main.cpp`
lines 264-271): for each line, trim it; skip it when empty; stop as soon as
the client is no longer connected; otherwise publish it (the boolean result
of `publish` is ignored by the C++ code) and continue.  The second
component is a ghost record of the trimmed lines that were handed to
`publish`, in order. -/
def flushLoop {σ : Type} (c : MqttClient σ) : σ → List String → σ × List String
  | s, [] => (s, [])
  | s, l :: rest =>
    if (trimLine l).length = 0 then flushLoop c s rest
    else if c.connected s = false then (s, [])
    else
      let r := flushLoop c (c.publish s (trimLine l)).1 rest
      (r.1, trimLine l :: r.2)

/-- Definition of `spoolFlush` from `src/observer_main.cpp` lines 259-276: if the spool
file exists, run the read-and-publish loop over its lines, then remove the
file only when the client is still connected afterwards.  Reading never
modifies the file, so when it is not removed it keeps its original
content. -/
def spoolFlush {σ : Type} (c : MqttClient σ) (s : σ)
    (spool : Option (List String)) : σ × Option (List String) :=
  match spool with
  | none => (s, none)
  | some lines =>
    let fl := flushLoop c s lines
    if c.connected fl.1 then (fl.1, none) else (fl.1, some lines)

/-! ### Per-record delivery and the loop cycle

From `src/observer_main.cpp` lines 396-493. -/

/-- Ghost summary of what happened to one encoded record: whether
`mqttClient.publish` was attempted for it and whether `spoolAppend` was
called on it. -/
structure DeliverInfo where
  publishAttempted : Bool
  spooled : Bool
deriving DecidableEq

/-- The publish-or-spool decision for one encoded record, from
`src/observer_main.cpp` lines 483-489: when the client is connected,
publish the record — a failed publish is only reported on the serial log
(line 485), nothing else is done with the record; when the client is not
connected, append the record to the spool.  Returns the new session state,
the new spool state, and the ghost `DeliverInfo`. -/
def deliverRecord {σ : Type} (c : MqttClient σ) (storageOk : Bool) (s : σ)
    (spool : Option (List String)) (json : String) :
    σ × Option (List String) × DeliverInfo :=
  if c.connected s then
    ((c.publish s json).1, spool, ⟨true, false⟩)
  else
    (s, (spoolAppend storageOk spool json).1, ⟨false, true⟩)

/-- Observable events of one loop cycle, in program order. -/
inductive CycleEvent where
  | drain
  | deliver
deriving DecidableEq

/-- Result of one loop cycle: final session state, final spool state, and
the cycle's events in order. -/
structure CycleResult (σ : Type) where
  mqtt : σ
  spool : Option (List String)
  events : List CycleEvent

/-- One iteration of `loop` (`src/observer_main.cpp` lines 396-493),
restricted to the connectivity / spool / delivery core (serial console,
WiFi logging and display rendering have no effect on that core).  Steps in
program order:
1. lines 412-430 — if WiFi is up and the MQTT client is not connected,
   attempt `mqttClient.connect`; when the session is (re)established, run
   `spoolFlush` (a `drain` event);
2. line 436 — `mqttClient.loop()` keepalive processing;
3. lines 444-489 — if no receive notification is pending, return;
   otherwise capture and encode the frame (its encoding is the `json`
   argument) and run the publish-or-spool decision (a `deliver` event). -/
def loopCycle {σ : Type} (c : MqttClient σ) (wifiUp : Bool) (s : σ)
    (spool : Option (List String)) (rxPending storageOk : Bool)
    (json : String) : CycleResult σ :=
  let step1 : σ × Option (List String) × List CycleEvent :=
    if wifiUp && !(c.connected s) then
      let sC := c.connect s
      if c.connected sC then
        let fl := spoolFlush c sC spool
        (fl.1, fl.2, [CycleEvent.drain])
      else (sC, spool, [])
    else (s, spool, [])
  let s2 := c.clientLoop step1.1
  if rxPending then
    let d := deliverRecord c storageOk s2 step1.2.1 json
    ⟨d.1, d.2.1, step1.2.2 ++ [CycleEvent.deliver]⟩
  else ⟨s2, step1.2.1, step1.2.2⟩

/-! ### Record encoder

From `src/observer_main.cpp` lines 467-481: the JSON record is built by
string concatenation.  The embedding lists the concatenated pieces in
source order (string literals split at field-label boundaries, which
preserves the concatenated value); numeric and float formatting
(`String(millis())`, `String(rssi, 1)`, ...) is abstracted as the
already-formatted string arguments, since the claims under study concern
which fields the record contains. -/

/-- Concatenation of a list of string pieces, left to right. -/
def concatAll : List String → String
  | [] => ""
  | p :: rest => p ++ concatAll rest

/-- The concatenated pieces of the fixed part of the JSON record
(`src/observer_main.cpp` lines 467-477), in source order. -/
def recordFields (observerId observerName tsStr ptypeStr crcStr rssiStr
    snrStr reportedLenStr lenStr payloadHex frameHash : String) :
    List String :=
  ["\x7b", "\"observerId\":", "\"", observerId, "\",",
   "\"observerName\":", "\"", observerName, "\",",
   "\"ts\":", tsStr, ",",
   "\"ptype\":", ptypeStr, ",",
   "\"crc\":", crcStr, ",",
   "\"rssi\":", rssiStr, ",",
   "\"snr\":", snrStr, ",",
   "\"reported_len\":", reportedLenStr, ",",
   "\"len\":", lenStr, ",",
   "\"payloadHex\":", "\"", payloadHex, "\",",
   "\"frameHash\":", "\"", frameHash, "\""]

/-- The optional GPS part (`src/observer_main.cpp` lines 478-480), present
when the configured latitude or longitude is nonzero. -/
def gpsPieces : Option (String × String) → List String
  | none => []
  | some p => [",", "\"gps\":", "\x7b", "\"lat\":", p.1, ",", "\"lon\":", p.2, "\x7d"]

/-- The complete encoded record: fixed fields, optional GPS object, closing
brace (`src/observer_main.cpp` lines 467-481). -/
def encodeRecord (observerId observerName tsStr ptypeStr crcStr rssiStr
    snrStr reportedLenStr lenStr payloadHex frameHash : String)
    (gps : Option (String × String)) : String :=
  concatAll (recordFields observerId observerName tsStr ptypeStr crcStr
    rssiStr snrStr reportedLenStr lenStr payloadHex frameHash
    ++ gpsPieces gps ++ ["\x7d"])

/-- Predicate: `r` contains `sub` as a contiguous substring. -/
def containsSub (r sub : String) : Prop :=
  ∃ s t : List Char, r.data = s ++ (sub.data ++ t)

/-- Boolean check that `sub` is a leading segment of `l`. -/
def hasPre (sub l : List Char) : Bool :=
  match sub, l with
  | [], _ => true
  | _ :: _, [] => false
  | a :: as, b :: bs => a == b && hasPre as bs

/-- Boolean check that `sub` occurs as a contiguous segment of `l`. -/
def containsB (l sub : List Char) : Bool :=
  match l with
  | [] => sub.isEmpty
  | h :: t => hasPre sub (h :: t) || containsB t sub

/-! ### Concrete MQTT clients used as witnesses -/

/-- A session that is always connected and always publishes successfully. -/
def upClient : MqttClient Unit :=
  ⟨fun _ => true, fun s => s, fun s _ => (s, true), fun s => s⟩

/-- A session that is connected but whose every publish call fails. -/
def failPubClient : MqttClient Unit :=
  ⟨fun _ => true, fun s => s, fun s _ => (s, false), fun s => s⟩

/-- A session over `Bool` state (the state is the connectedness), whose
connect attempt always succeeds. -/
def boolClient : MqttClient Bool :=
  ⟨fun s => s, fun _ => true, fun s _ => (s, true), fun s => s⟩

/-- Characters of a record line one byte short of the spool cap. -/
def bigLineData : List Char := List.replicate (MAX_SPOOL_BYTES - 1) 'a'

/-- A record line one byte short of the spool cap: appending it overflows
any spool. -/
def bigLine : String := String.mk bigLineData

/-! ### Helper lemmas -/

theorem data_append (a b : String) : (a ++ b).data = a.data ++ b.data := rfl

theorem hasPre_append (sub t : List Char) : hasPre sub (sub ++ t) = true := by
  induction sub with
  | nil => rfl
  | cons a as ih => simp [hasPre, ih]

theorem containsB_of_hasPre {sub l : List Char} (h : hasPre sub l = true) :
    containsB l sub = true := by
  cases l with
  | nil =>
    cases sub with
    | nil => rfl
    | cons a as => exact absurd h (by simp [hasPre])
  | cons x xs => simp [containsB, h]

theorem containsB_spec (s sub t : List Char) :
    containsB (s ++ (sub ++ t)) sub = true := by
  induction s with
  | nil => exact containsB_of_hasPre (hasPre_append sub t)
  | cons c cs ih => simp [containsB, ih]

theorem containsSub_concatAll {sub : String} :
    ∀ l : List String, sub ∈ l → containsSub (concatAll l) sub := by
  intro l hmem
  induction l with
  | nil => cases hmem
  | cons p rest ih =>
    cases hmem with
    | head =>
      exact ⟨[], (concatAll rest).data, by simp [concatAll, data_append]⟩
    | tail _ hrest =>
      obtain ⟨s, t, h⟩ := ih hrest
      exact ⟨p.data ++ s, t, by simp [concatAll, data_append, h]⟩

theorem flushLoop_all_published {σ : Type} (c : MqttClient σ) :
    ∀ (lines : List String) (s : σ),
      c.connected (flushLoop c s lines).1 = true →
      (∀ l ∈ lines, (trimLine l).length ≠ 0) →
      (flushLoop c s lines).2 = lines.map trimLine := by
  intro lines
  induction lines with
  | nil => intro s _ _; rfl
  | cons l rest ih =>
    intro s hconn hclean
    have hl : ¬ (trimLine l).length = 0 := hclean l (List.mem_cons_self l rest)
    by_cases hc : c.connected s = false
    · rw [flushLoop, if_neg hl, if_pos hc] at hconn
      exact absurd hconn (by simp [hc])
    · have hclean' : ∀ x ∈ rest, (trimLine x).length ≠ 0 :=
        fun x hx => hclean x (List.mem_cons_of_mem l hx)
      rw [flushLoop, if_neg hl, if_neg hc] at hconn ⊢
      simp only at hconn ⊢
      rw [ih _ hconn hclean', List.map_cons]

theorem bigLine_length : bigLine.length = MAX_SPOOL_BYTES - 1 := by
  show bigLineData.length = MAX_SPOOL_BYTES - 1
  unfold bigLineData
  exact List.length_replicate _ _

theorem spoolSize_single (l : String) :
    spoolSize (((some [] : Option (List String))).getD [] ++ [l]) = l.length + 2 := by
  simp [spoolSize, lineBytes]

theorem bigLine_overflow :
    MAX_SPOOL_BYTES < spoolSize (((some [] : Option (List String))).getD [] ++ [bigLine]) := by
  rw [spoolSize_single, bigLine_length]
  simp only [MAX_SPOOL_BYTES]
  omega

/-! ### Claims -/

/-- C1 counterexample: with the session connected and a publish call that
fails, the record is not appended to the spool — the spool stays exactly as
it was (`none`) and `spoolAppend` is never invoked; the failure is only
logged.  This refutes the claim that a failed publish falls back to
`Spool.append`. -/
theorem deliverRecord_pubfail_not_spooled :
    (failPubClient.publish () "rec").2 = false ∧
    (deliverRecord failPubClient true () none "rec").2.1 = none ∧
    (deliverRecord failPubClient true () none "rec").2.2.spooled = false := by
  decide

/-- C1 (amended): while the connectivity state is TransportUp (the client
is connected), the delivered record never reaches the spool — also when the
transport publish call fails, in which case the failure is only logged and
the record is dropped; spooling happens only when the client is not
connected. -/
theorem deliverRecord_connected_spool_unchanged {σ : Type} (c : MqttClient σ)
    (storageOk : Bool) (s : σ) (spool : Option (List String)) (json : String)
    (hconn : c.connected s = true) :
    (deliverRecord c storageOk s spool json).2.1 = spool ∧
    (deliverRecord c storageOk s spool json).2.2.spooled = false := by
  simp [deliverRecord, hconn]

theorem deliverRecord_connected_spool_unchanged_witness :
    (deliverRecord failPubClient true () none "rec").2.1 = none :=
  (deliverRecord_connected_spool_unchanged failPubClient true () none "rec" rfl).1

/-- C2: a drain run removes the backing file only when every record line
was handed to the publish function (first conjunct); the file is always
either removed whole or kept whole (second conjunct); and when replay stops
partway — not all lines were handed over — the spool keeps its full
original, unmodified content for the next drain attempt (third conjunct).
The hypothesis says every stored line is a real record (non-blank), which
is what `spoolAppend` produces. -/
theorem spoolFlush_remove_iff_all_published {σ : Type} (c : MqttClient σ)
    (s : σ) (lines : List String)
    (hclean : ∀ l ∈ lines, (trimLine l).length ≠ 0) :
    ((spoolFlush c s (some lines)).2 = none →
      (flushLoop c s lines).2 = lines.map trimLine) ∧
    ((spoolFlush c s (some lines)).2 = none ∨
      (spoolFlush c s (some lines)).2 = some lines) ∧
    ((flushLoop c s lines).2 ≠ lines.map trimLine →
      (spoolFlush c s (some lines)).2 = some lines) := by
  by_cases hc : c.connected (flushLoop c s lines).1 = true
  · refine ⟨fun _ => flushLoop_all_published c lines s hc hclean, ?_, ?_⟩
    · left; simp [spoolFlush, hc]
    · intro hne
      exact absurd (flushLoop_all_published c lines s hc hclean) hne
  · have h2 : (spoolFlush c s (some lines)).2 = some lines := by
      simp only [spoolFlush]
      rw [if_neg hc]
    refine ⟨fun habs => ?_, Or.inr h2, fun _ => h2⟩
    rw [h2] at habs
    exact Option.noConfusion habs

theorem spoolFlush_remove_iff_all_published_witness :
    (flushLoop upClient () ["r1"]).2 = ["r1"].map trimLine :=
  (spoolFlush_remove_iff_all_published upClient () ["r1"] (by decide)).1 (by decide)

/-- C3: a completed append (storage opened and written) always reports
success and never leaves the spool file above `MAX_SPOOL_BYTES`: when the
appended line pushes the resulting size over the cap, the entire file is
removed, so the spool is empty immediately after the call returns. -/
theorem spoolAppend_cap_invariant (spool : Option (List String)) (line : String) :
    (spoolAppend true spool line).2 = true ∧
    spoolSize (((spoolAppend true spool line).1).getD []) ≤ MAX_SPOOL_BYTES ∧
    (MAX_SPOOL_BYTES < spoolSize (spool.getD [] ++ [line]) →
      (spoolAppend true spool line).1 = none) := by
  have hunf : spoolAppend true spool line =
      if MAX_SPOOL_BYTES < spoolSize (spool.getD [] ++ [line]) then (none, true)
      else (some (spool.getD [] ++ [line]), true) := by
    simp [spoolAppend]
  by_cases h : MAX_SPOOL_BYTES < spoolSize (spool.getD [] ++ [line])
  · rw [hunf, if_pos h]
    exact ⟨rfl, by simp [spoolSize], fun _ => rfl⟩
  · rw [hunf, if_neg h]
    exact ⟨rfl, by simp only [Option.getD_some]; omega, fun hc => absurd hc h⟩

theorem spoolAppend_cap_invariant_witness :
    (spoolAppend true (some []) bigLine).1 = none :=
  (spoolAppend_cap_invariant (some []) bigLine).2.2 bigLine_overflow

/-- C4 counterexample: a concrete encoded record produced by the encoder
contains no `"fp"` field anywhere — the observer pipeline computes no
fingerprint and the encoder does not take one, so the record cannot contain
the coarse 64-bit fingerprint the claim requires (the sniffer in
`src/main.cpp` emits `"fp"` on its serial JSON, but the observer's encoded
record does not). -/
theorem encodeRecord_no_fingerprint_field :
    ¬ containsSub (encodeRecord "AA11BB22CC33" "obs-node" "12345" "17" "true"
        "-80.0" "5.25" "4" "4" "11223344" "ABCD1234" none) "\"fp\"" := by
  intro h
  obtain ⟨s, t, heq⟩ := h
  have hb := containsB_spec s ("\"fp\"").data t
  rw [← heq] at hb
  exact absurd hb (by decide)

/-- C4 (amended): every encoded record contains every field enumerated for
EncodedRecord — device identity, device display name, capture timestamp,
frame type, integrity flag, both signal statistics, reported and used
lengths, the hex-encoded payload, and the strong content hash — but not the
coarse 64-bit fingerprint, which is absent from the record (see the
counterexample). -/
theorem encodeRecord_contains_fields (observerId observerName tsStr ptypeStr
    crcStr rssiStr snrStr reportedLenStr lenStr payloadHex frameHash : String)
    (gps : Option (String × String)) :
    containsSub (encodeRecord observerId observerName tsStr ptypeStr crcStr
      rssiStr snrStr reportedLenStr lenStr payloadHex frameHash gps)
      "\"observerId\":" ∧
    containsSub (encodeRecord observerId observerName tsStr ptypeStr crcStr
      rssiStr snrStr reportedLenStr lenStr payloadHex frameHash gps)
      "\"observerName\":" ∧
    containsSub (encodeRecord observerId observerName tsStr ptypeStr crcStr
      rssiStr snrStr reportedLenStr lenStr payloadHex frameHash gps)
      "\"ts\":" ∧
    containsSub (encodeRecord observerId observerName tsStr ptypeStr crcStr
      rssiStr snrStr reportedLenStr lenStr payloadHex frameHash gps)
      "\"ptype\":" ∧
    containsSub (encodeRecord observerId observerName tsStr ptypeStr crcStr
      rssiStr snrStr reportedLenStr lenStr payloadHex frameHash gps)
      "\"crc\":" ∧
    containsSub (encodeRecord observerId observerName tsStr ptypeStr crcStr
      rssiStr snrStr reportedLenStr lenStr payloadHex frameHash gps)
      "\"rssi\":" ∧
    containsSub (encodeRecord observerId observerName tsStr ptypeStr crcStr
      rssiStr snrStr reportedLenStr lenStr payloadHex frameHash gps)
      "\"snr\":" ∧
    containsSub (encodeRecord observerId observerName tsStr ptypeStr crcStr
      rssiStr snrStr reportedLenStr lenStr payloadHex frameHash gps)
      "\"reported_len\":" ∧
    containsSub (encodeRecord observerId observerName tsStr ptypeStr crcStr
      rssiStr snrStr reportedLenStr lenStr payloadHex frameHash gps)
      "\"len\":" ∧
    containsSub (encodeRecord observerId observerName tsStr ptypeStr crcStr
      rssiStr snrStr reportedLenStr lenStr payloadHex frameHash gps)
      "\"payloadHex\":" ∧
    containsSub (encodeRecord observerId observerName tsStr ptypeStr crcStr
      rssiStr snrStr reportedLenStr lenStr payloadHex frameHash gps)
      "\"frameHash\":" ∧
    containsSub (encodeRecord observerId observerName tsStr ptypeStr crcStr
      rssiStr snrStr reportedLenStr lenStr payloadHex frameHash gps)
      payloadHex ∧
    containsSub (encodeRecord observerId observerName tsStr ptypeStr crcStr
      rssiStr snrStr reportedLenStr lenStr payloadHex frameHash gps)
      frameHash := by
  refine ⟨?_, ?_, ?_, ?_, ?_, ?_, ?_, ?_, ?_, ?_, ?_, ?_, ?_⟩ <;>
    exact containsSub_concatAll _ (by simp [recordFields])

/-- C5: each encoded record is either handed to the transport or appended
to the spool, never both: the publish attempt happens exactly when the
spool append does not, a record that was handed to the transport leaves the
spool unchanged (in particular a successfully published record never
touches the spool), and a spooled record changes the spool exactly by the
`spoolAppend` of that record. -/
theorem deliverRecord_publish_xor_spool {σ : Type} (c : MqttClient σ)
    (storageOk : Bool) (s : σ) (spool : Option (List String)) (json : String) :
    ((deliverRecord c storageOk s spool json).2.2.publishAttempted = true ↔
      (deliverRecord c storageOk s spool json).2.2.spooled = false) ∧
    ((deliverRecord c storageOk s spool json).2.2.publishAttempted = true →
      (deliverRecord c storageOk s spool json).2.1 = spool) ∧
    ((deliverRecord c storageOk s spool json).2.2.spooled = true →
      (deliverRecord c storageOk s spool json).2.1 =
        (spoolAppend storageOk spool json).1) := by
  by_cases h : c.connected s = true <;> simp [deliverRecord, h]

theorem deliverRecord_publish_xor_spool_witness :
    (deliverRecord upClient true () none "rec").2.1 = none :=
  (deliverRecord_publish_xor_spool upClient true () none "rec").2.1 (by decide)

/-- C6: on a cycle in which the connectivity state transitions into
TransportUp (the session was down at the start of the cycle and the connect
attempt succeeds), the cycle performs exactly one spool drain, and the
drain precedes the delivery of any record captured in that cycle. -/
theorem loopCycle_transition_drains_once {σ : Type} (c : MqttClient σ)
    (s : σ) (spool : Option (List String)) (rxPending storageOk : Bool)
    (json : String) (hdown : c.connected s = false)
    (hup : c.connected (c.connect s) = true) :
    ∃ rest, (loopCycle c true s spool rxPending storageOk json).events =
      CycleEvent.drain :: rest ∧ CycleEvent.drain ∉ rest := by
  cases rxPending with
  | false =>
    exact ⟨[], by simp [loopCycle, hdown, hup], by simp⟩
  | true =>
    exact ⟨[CycleEvent.deliver], by simp [loopCycle, hdown, hup], by simp⟩

theorem loopCycle_transition_drains_once_witness :
    ∃ rest, (loopCycle boolClient true false none true true "rec").events =
      CycleEvent.drain :: rest ∧ CycleEvent.drain ∉ rest :=
  loopCycle_transition_drains_once boolClient false none true true "rec" rfl rfl

/-- C7: the used read length never exceeds the 255-byte buffer capacity; it
never exceeds the reported length when the reported length is positive; and
a non-positive reported length falls back to a full-buffer-sized read
instead of dropping the frame. -/
theorem usedLen_bounds (r : Int) :
    usedLen r ≤ bufSize ∧ (0 < r → usedLen r ≤ r) ∧
    (r ≤ 0 → usedLen r = bufSize) := by
  simp only [usedLen, bufSize]
  split_ifs <;> refine ⟨by omega, fun h => by omega, fun h => by omega⟩

theorem usedLen_bounds_witness :
    usedLen 7 ≤ 7 ∧ usedLen (-2) = bufSize :=
  ⟨(usedLen_bounds 7).2.1 (by decide), (usedLen_bounds (-2)).2.2 (by decide)⟩

/-- C8: the fingerprint is a pure function of at most the first 20 bytes of
the payload (fewer when the frame is shorter): any two buffers and lengths
with identical `min(len, 20)`-byte prefixes yield the same 64-bit
fingerprint, whatever the remaining bytes are. -/
theorem fingerprint_depends_only_on_head (buf1 buf2 : List Nat)
    (len1 len2 : Nat)
    (h : buf1.take (min len1 20) = buf2.take (min len2 20)) :
    fingerprintOfFrame buf1 len1 = fingerprintOfFrame buf2 len2 := by
  unfold fingerprintOfFrame
  rw [h]

theorem fingerprint_depends_only_on_head_witness :
    fingerprintOfFrame [1, 2, 9] 2 = fingerprintOfFrame [1, 2] 5 :=
  fingerprint_depends_only_on_head [1, 2, 9] [1, 2] 2 5 (by decide)

/-- C9: `spoolAppend` reports success whenever storage could be opened and
written — also when the post-write size check then discards the entire
spool including the record just appended: in the overflow case the call
still returns `true` while the spool comes back empty, so the caller cannot
tell a durably spooled record from one lost to the overflow discard. -/
theorem spoolAppend_true_despite_discard (spool : Option (List String))
    (line : String) :
    (spoolAppend true spool line).2 = true ∧
    (MAX_SPOOL_BYTES < spoolSize (spool.getD [] ++ [line]) →
      spoolAppend true spool line = (none, true)) := by
  have hunf : spoolAppend true spool line =
      if MAX_SPOOL_BYTES < spoolSize (spool.getD [] ++ [line]) then (none, true)
      else (some (spool.getD [] ++ [line]), true) := by
    simp [spoolAppend]
  by_cases h : MAX_SPOOL_BYTES < spoolSize (spool.getD [] ++ [line])
  · rw [hunf, if_pos h]
    exact ⟨rfl, fun _ => rfl⟩
  · rw [hunf, if_neg h]
    exact ⟨rfl, fun hc => absurd hc h⟩

theorem spoolAppend_true_despite_discard_witness :
    spoolAppend true (some []) bigLine = (none, true) :=
  (spoolAppend_true_despite_discard (some []) bigLine).2 bigLine_overflow

/-- C10: the used read length is always at least 1 (a non-positive reported
length falls back to the 255-byte full buffer), so the frame-type field
always equals the first byte of the read buffer and the `-1` empty-payload
sentinel branch is never taken. -/
theorem usedLen_pos_ptype_first_byte (r : Int) (b : Int) :
    1 ≤ usedLen r ∧ ptypeOf (usedLen r) b = b := by
  have h1 : 1 ≤ usedLen r := by
    simp only [usedLen, bufSize]
    split_ifs <;> omega
  exact ⟨h1, by simp only [ptypeOf]; rw [if_pos (by omega)]⟩

end MeshcoreObserver
